import Mathlib

/-!
Verification development for the Scitify retrieval scripts
(`PubMed_retrieve.py`, `arXiv_retrieve.py`, `bioRxiv_retrieve.py`,
`summarise_papers.py`).  The Python sources are shallowly embedded as
executable Lean definitions: strings are Lean `String`s (Python `.lower()`
is modelled by ASCII `Char.toLower`), timestamps are integers measured in
days, fallible stateful loops are written with explicit fuel or `Except`
state passing, and the upstream HTTP APIs are modelled by oracle functions
supplied as arguments.
-/

/-! ## Python string primitives -/

/-- Python `s.lower()` (ASCII model). -/
def pyLower (s : String) : String := ⟨s.data.map Char.toLower⟩

/-- Substring test on character lists: `needle` occurs contiguously in
`haystack`.  The empty needle occurs everywhere, as in Python. -/
def isSubstrList (n : List Char) : List Char → Bool
  | [] => n.isEmpty
  | c :: t => n.isPrefixOf (c :: t) || isSubstrList n t

/-- Python `needle in haystack` for strings. -/
def pyIn (needle haystack : String) : Bool :=
  isSubstrList needle.data haystack.data

/-- Python `s.strip()` (ASCII whitespace model). -/
def pyStrip (s : String) : String :=
  ⟨((s.data.dropWhile Char.isWhitespace).reverse.dropWhile Char.isWhitespace).reverse⟩

/-- Python `s.replace(a, b)` for single characters. -/
def pyReplaceChar (s : String) (a b : Char) : String :=
  ⟨s.data.map (fun c => if c = a then b else c)⟩

/-- Split a character list at every character satisfying `p`, keeping empty
pieces (like Python `re`-free splitting); `cur` is the reversed piece being
accumulated. -/
def splitByAux (p : Char → Bool) : List Char → List Char → List String
  | [], cur => [⟨cur.reverse⟩]
  | x :: t, cur =>
      if p x then ⟨cur.reverse⟩ :: splitByAux p t []
      else splitByAux p t (x :: cur)

/-- Python `s.split()`: split on whitespace runs, dropping empty pieces. -/
def pySplitWs (s : String) : List String :=
  (splitByAux Char.isWhitespace s.data []).filter (fun w => w ≠ "")

/-- Python `s.split(sep)` for a one-character separator. -/
def splitOnChar (c : Char) (s : String) : List String :=
  splitByAux (fun x => x = c) s.data []

/-- Python `s.startswith(p)`. -/
def strStarts (s p : String) : Bool := p.data.isPrefixOf s.data

/-- Drop the first `n` characters of a string. -/
def strDrop (s : String) (n : Nat) : String := ⟨s.data.drop n⟩

/-- Take the first `n` characters of a string. -/
def strTake (s : String) (n : Nat) : String := ⟨s.data.take n⟩

/-- Join a list of strings with a separator (Python `sep.join(parts)`). -/
def strIntercalate (sep : String) : List String → String
  | [] => ""
  | [a] => a
  | a :: b :: t => a ++ sep ++ strIntercalate sep (b :: t)

/-- Numeric value of a digit string. -/
def digitsToNat (s : String) : Nat :=
  s.data.foldl (fun a c => a * 10 + (c.toNat - 48)) 0

/-- Python `s.capitalize()`: first character uppercased, rest lowercased. -/
def pyCapitalize (s : String) : String :=
  match s.data with
  | [] => ""
  | c :: t => ⟨c.toUpper :: t.map Char.toLower⟩

/-- Python `s.zfill(n)` for non-negative digit strings. -/
def pyZfill (n : Nat) (s : String) : String :=
  if s.length < n then ⟨List.replicate (n - s.length) '0' ++ s.data⟩ else s

/-! ## Keyword configuration loader

`load_keywords_from_file` is textually identical in the three retrieval
scripts (PubMed additionally reads a `journals_of_interest` section).  A
configuration file is modelled as `none` (missing file) or an association
list from section names to the list of keys in that section; `configparser`
with `allow_no_value=True` exposes exactly the key names. -/

structure KeywordsDict where
  keywords : List String
  exclude_keywords : List String
  required_keywords : List String
  journals_of_interest : List String
deriving DecidableEq

/-- Keys of the named section, `[]` when the section is absent. -/
def sectionKeys (sections : List (String × List String)) (name : String) : List String :=
  (sections.lookup name).getD []

/-- `load_keywords_from_file`: `None` when the file does not exist, else the
four key lists (absent sections give empty lists). -/
def load_keywords_from_file :
    Option (List (String × List String)) → Option KeywordsDict
  | none => none
  | some s =>
      some { keywords := sectionKeys s "keywords"
             exclude_keywords := sectionKeys s "exclude_keywords"
             required_keywords := sectionKeys s "required_keywords"
             journals_of_interest := sectionKeys s "journals_of_interest" }

/-- Startup sequence shared by the three scripts: load the keyword file,
report a configuration error and `sys.exit(1)` when the file is missing or
its `keywords` list is empty, and only otherwise run the rest of the script
(which performs the network calls).  The result is the pair
(exit status, number of network calls issued). -/
def scriptMain (cf : Option (List (String × List String)))
    (runRest : KeywordsDict → Nat × Nat) : Nat × Nat :=
  match load_keywords_from_file cf with
  | none => (1, 0)
  | some kd => if kd.keywords.isEmpty then (1, 0) else runRest kd

/-! ## Client-side filter primitives (arXiv / bioRxiv)

In both scripts `combined_text = (title + " " + abstract).lower()` is
computed first; the functions below receive that lowered text. -/

/-- arXiv, line 160: `any(exclude_keyword.lower() in combined_text for
exclude_keyword in exclude_keywords)`. -/
def arxivExcludeRejectB (excl : List String) (combined : String) : Bool :=
  excl.any (fun k => pyIn (pyLower k) combined)

/-- bioRxiv, line 156: `exclude_keywords and any(exclude_keyword.lower() in
combined_text for exclude_keyword in exclude_keywords)`. -/
def biorxivExcludeRejectB (excl : List String) (combined : String) : Bool :=
  !excl.isEmpty && excl.any (fun k => pyIn (pyLower k) combined)

/-- `score = sum(req_keyword.lower() in combined_text for req_keyword in
required_keywords)`: number of required keywords occurring in the text. -/
def reqScore (req : List String) (combined : String) : Nat :=
  (req.filter (fun k => pyIn (pyLower k) combined)).length

/-- arXiv, line 163: `if not required_keywords or score > 0`. -/
def arxivRequiredAcceptB (req : List String) (combined : String) : Bool :=
  req.isEmpty || decide (0 < reqScore req combined)

/-- bioRxiv, lines 162-164: reject when `required_keywords` is non-empty and
`score == 0`. -/
def biorxivRequiredRejectB (req : List String) (combined : String) : Bool :=
  !req.isEmpty && (reqScore req combined == 0)

/-! ## PubMed retrieval (`PubMed_retrieve.py`)

An article is the data the script reads out of one `PubmedArticle` XML
record: `Option` marks fields accessed through `.get` with a default, and
`doi` is the first `ELocationID` of type `doi` (if any). -/

structure PubmedAuthor where
  lastName : Option String
  initials : Option String
deriving DecidableEq

structure PubmedArticle where
  journalTitle : String
  articleTitle : Option String
  authorList : List PubmedAuthor
  pubYear : Option String
  pubMonth : Option String
  pubDay : Option String
  abstractFirst : Option String
  doi : Option String
deriving DecidableEq

/-- `month_mapping`: textual month prefixes to two-digit numbers. -/
def month_mapping : List (String × String) :=
  [("jan", "01"), ("feb", "02"), ("mar", "03"), ("apr", "04"),
   ("may", "05"), ("jun", "06"), ("jul", "07"), ("aug", "08"),
   ("sep", "09"), ("oct", "10"), ("nov", "11"), ("dec", "12")]

/-- Lines 200-211: build `date_str` from the `PubDate` parts.  Missing year
gives the literal `Unknown Date`; the month name is lowercased, truncated to
three letters and looked up in `month_mapping` (default "01"); a missing or
empty day becomes "01", otherwise the day is zero-filled to two digits. -/
def pubmedDateStr (a : PubmedArticle) : String :=
  let month := strTake (pyLower (a.pubMonth.getD "")) 3
  let monthNum := (month_mapping.lookup month).getD "01"
  match a.pubYear with
  | none => "Unknown Date"
  | some y =>
      let d := a.pubDay.getD ""
      y ++ "-" ++ monthNum ++ "-" ++ (if d = "" then "01" else pyZfill 2 d)

/-- Lines 190-196: comma-join `"{LastName} {Initials}"` over the authors
that have a `LastName`. -/
def pubmedAuthorsStr (a : PubmedArticle) : String :=
  strIntercalate ", "
    (a.authorList.filterMap
      (fun au => au.lastName.map (fun ln => ln ++ " " ++ au.initials.getD "")))

/-- Lines 224-227: full-text URL from the DOI, else a literal token. -/
def pubmedUrl (a : PubmedArticle) : String :=
  match a.doi with
  | some d => "https://doi.org/" ++ d
  | none => "Full text link not available"

/-- Lines 229-237: the six labelled fields of a PubMed record, in source
order.  `journal` in the script is the lowercased journal title; the record
shows it re-capitalized. -/
def pubmedEntryFields (a : PubmedArticle) : List (String × String) :=
  [("Title", a.articleTitle.getD "No Title"),
   ("Authors", pubmedAuthorsStr a),
   ("Journal", pyCapitalize (pyLower a.journalTitle)),
   ("Date", pubmedDateStr a),
   ("URL", pubmedUrl a),
   ("Abstract", a.abstractFirst.getD "No Abstract")]

/-- Render a labelled field list the way the scripts build their f-strings:
one `Label: value` line per field, then the blank separator line. -/
def renderFields (fs : List (String × String)) : String :=
  String.join (fs.map (fun p => p.1 ++ ": " ++ p.2 ++ "\n")) ++ "\n"

/-- Line 188: journal allow-list test — pass when no journals of interest
are configured, or some configured name occurs (lowercased) in the
lowercased journal title. -/
def pubmedJournalOkB (joi : List String) (journalLower : String) : Bool :=
  joi.isEmpty || joi.any (fun j => pyIn (pyLower j) journalLower)

/-- Lines 183-242, body of the per-article loop: the only client-side filter
is the journal allow-list; every article passing it is formatted and
accumulated.  (No exclusion-keyword or required-keyword test appears in this
loop: exclusion is only part of the server query, and `required_keywords`
is loaded but never consulted by this script.) -/
def pubmedProcessArticle (joi : List String) (a : PubmedArticle) :
    Option (List (String × String)) :=
  if pubmedJournalOkB joi (pyLower a.journalTitle) then
    some (pubmedEntryFields a)
  else none

/-- Lines 150-157: the server query for one keyword — `(keyword)`, an
optional AND-joined OR-group of `[Journal]` filters, and one `NOT` clause
per exclusion keyword. -/
def pubmedQuery (keyword : String) (joi excl : List String) : String :=
  let q := "(" ++ keyword ++ ")"
  let q := if joi.isEmpty then q
    else q ++ " AND (" ++
      strIntercalate " OR " (joi.map (fun j => j ++ "[Journal]")) ++ ")"
  if excl.isEmpty then q else q ++ " NOT " ++ strIntercalate " NOT " excl

/-- One PubMed page interaction: either an exception raised inside the
`try` blocks around `Entrez.esearch`/`Entrez.efetch` (caught by the script),
or a page carrying the fetched articles and the server's total `Count`. -/
inductive PmPage where
  | raises (msg : String)
  | page (arts : List PubmedArticle) (count : Nat)

/-- Lines 160-249, pagination loop for one keyword: on an exception, log
and break (the accumulator survives); on an empty id list, break; otherwise
append the accepted articles, advance `retstart` by the batch size and stop
once it reaches the reported count.  `fuel` bounds the iteration count of
the `while True` loop. -/
def pubmedKeywordLoop (fetch : Nat → PmPage) (joi : List String) (b : Nat) :
    Nat → Nat → List (List (String × String)) → List (List (String × String))
  | 0, _, acc => acc
  | fuel + 1, r, acc =>
      match fetch r with
      | .raises _ => acc
      | .page arts count =>
          if arts.isEmpty then acc
          else
            let acc2 := acc ++ arts.filterMap (pubmedProcessArticle joi)
            if count ≤ r + b then acc2
            else pubmedKeywordLoop fetch joi b fuel (r + b) acc2

/-- Lines 146-249: process the keywords in order, threading the shared
`entries` accumulator; each keyword restarts at `retstart = 0`. -/
def pubmedRun (fetch : String → Nat → PmPage) (joi : List String)
    (b fuel : Nat) :
    List String → List (List (String × String)) → List (List (String × String))
  | [], acc => acc
  | k :: t, acc =>
      pubmedRun fetch joi b fuel t (pubmedKeywordLoop (fetch k) joi b fuel 0 acc)

/-- Page-size trace of the PubMed pagination loop against an ideal server
holding `count` matching ids (the page at `retstart = r` has
`min b (count - r)` ids).  One list element per issued page request; the
loop breaks on an empty id list or once `retstart` reaches `count`. -/
def pubmedTraceAux (count b : Nat) : Nat → Nat → List Nat
  | _, 0 => []
  | r, fuel + 1 =>
      let page := min b (count - r)
      if page = 0 then [0]
      else if count ≤ r + b then [page]
      else page :: pubmedTraceAux count b (r + b) fuel

/-- Page-size trace of a full PubMed pagination run for one keyword. -/
def pubmedTrace (count b : Nat) : List Nat :=
  pubmedTraceAux count b 0 (count + 1)

/-! ## arXiv retrieval (`arXiv_retrieve.py`)

Feed entries carry a timestamp measured in integer days (`published`), the
same timestamp rendered as `%Y-%m-%d` (`publishedStr`), and the Atom
fields the script reads. -/

structure ArxivEntry where
  title : String
  summary : String
  link : String
  authors : List String
  published : Int
  publishedStr : String
deriving DecidableEq

structure ArxivConfig where
  excludeKeywords : List String
  requiredKeywords : List String
deriving DecidableEq

/-- Line 165: `' '.join(entry.title.strip().replace('\n', ' ').split())`. -/
def cleanTitle (s : String) : String :=
  strIntercalate " " (pySplitWs (pyReplaceChar (pyStrip s) '\n' ' '))

/-- Lines 167-173: the five labelled fields of an arXiv record, in source
order (there is no `Journal` field). -/
def arxivEntryFields (e : ArxivEntry) : List (String × String) :=
  [("Title", cleanTitle e.title),
   ("Authors", strIntercalate ", " e.authors),
   ("Date", e.publishedStr),
   ("URL", e.link),
   ("Abstract", e.summary)]

/-- Python-dict insertion on an insertion-ordered association list:
assigning to an existing key replaces the value in place, a new key is
appended. -/
def dictInsert (d : List (String × String)) (k v : String) :
    List (String × String) :=
  if d.any (fun p => p.1 == k) then
    d.map (fun p => if p.1 == k then (k, v) else p)
  else d ++ [(k, v)]

/-- Mutable state of the arXiv keyword loops: `processed_links` and the
`entries` dict keyed by entry URL. -/
structure ArxivState where
  processedLinks : List String
  entries : List (String × String)
deriving DecidableEq

def arxivState0 : ArxivState := ⟨[], []⟩

/-- How one fetched arXiv entry fared in the per-entry body. -/
inductive ArxivReason where
  | retrieved
  | dupSkip
  | tooOld
  | excludedKeyword
  | lowScore
deriving DecidableEq

/-- Lines 144-180, body of the per-entry loop, in source order: (1) skip if
the link is already in `processed_links`; (2) record the link as processed;
(3) keep only entries published within the last `days` days; (4) reject on
any exclusion keyword in the lowered combined title+summary; (5) reject
when required keywords are configured and none occurs; otherwise store the
formatted record in the `entries` dict under the link. -/
def arxivProcessEntry (cfg : ArxivConfig) (now days : Int) (st : ArxivState)
    (e : ArxivEntry) : ArxivState × ArxivReason :=
  if st.processedLinks.contains e.link then (st, .dupSkip)
  else if now - days ≤ e.published then
    if arxivExcludeRejectB cfg.excludeKeywords (pyLower (e.title ++ " " ++ e.summary)) then
      ({ st with processedLinks := st.processedLinks ++ [e.link] }, .excludedKeyword)
    else if arxivRequiredAcceptB cfg.requiredKeywords (pyLower (e.title ++ " " ++ e.summary)) then
      ({ processedLinks := st.processedLinks ++ [e.link],
         entries := dictInsert st.entries e.link (renderFields (arxivEntryFields e)) },
        .retrieved)
    else ({ st with processedLinks := st.processedLinks ++ [e.link] }, .lowScore)
  else ({ st with processedLinks := st.processedLinks ++ [e.link] }, .tooOld)

/-- Run the per-entry body over a list of fetched entries, collecting the
per-entry outcomes. -/
def arxivRunList (cfg : ArxivConfig) (now days : Int) (st : ArxivState) :
    List ArxivEntry → ArxivState × List ArxivReason
  | [] => (st, [])
  | e :: t =>
      let p := arxivProcessEntry cfg now days st e
      let q := arxivRunList cfg now days p.1 t
      (q.1, p.2 :: q.2)

/-- Modelled from the claim wording, for comparison with
`arxivProcessEntry`: filters applied in the order exclusion filter,
required-keyword scoring, then deduplication, short-circuiting on the first
rejection, with deduplication rejecting only a URL that was already
accepted. -/
def claimOrderFilterReason (cfg : ArxivConfig) (acceptedLinks : List String)
    (e : ArxivEntry) : ArxivReason :=
  let combined := pyLower (e.title ++ " " ++ e.summary)
  if arxivExcludeRejectB cfg.excludeKeywords combined then .excludedKeyword
  else if !arxivRequiredAcceptB cfg.requiredKeywords combined then .lowScore
  else if acceptedLinks.contains e.link then .dupSkip
  else .retrieved

/-- Page-size trace of the arXiv pagination loop (lines 132-183) against an
ideal server holding `count` matching entries.  The loop breaks only when a
page comes back empty, so the final empty page is also a request. -/
def arxivTraceAux (count b : Nat) : Nat → Nat → List Nat
  | _, 0 => []
  | off, fuel + 1 =>
      let page := min b (count - off)
      if page = 0 then [0]
      else page :: arxivTraceAux count b (off + b) fuel

/-- Page-size trace of a full arXiv pagination run for one keyword. -/
def arxivTrace (count b : Nat) : List Nat :=
  arxivTraceAux count b 0 (count + 1)

/-! ## bioRxiv retrieval (`bioRxiv_retrieve.py`) -/

/-- The `authors` value of a bioRxiv item: the script tolerates either a
list (joined with ", ") or a bare string (lines 170-174). -/
inductive PyStrOrList where
  | str (s : String)
  | list (l : List String)
deriving DecidableEq

def pyJoinAuthors : PyStrOrList → String
  | .list l => strIntercalate ", " l
  | .str s => s

structure BiorxivItem where
  title : String
  abstract : String
  authors : PyStrOrList
  date : String
  doi : String
deriving DecidableEq

structure BioConfig where
  excludeKeywords : List String
  requiredKeywords : List String
deriving DecidableEq

/-- How one fetched bioRxiv item fared in the per-item body. -/
inductive BioReason where
  | notSelected
  | excludedKeyword
  | missingRequired
  | retrieved
deriving DecidableEq

/-- Lines 177-184: the six labelled fields of a bioRxiv record, in source
order — `DOI` where the PubMed record carries `Journal`, and in a different
position. -/
def biorxivEntryFields (item : BiorxivItem) : List (String × String) :=
  [("Title", item.title),
   ("Authors", pyJoinAuthors item.authors),
   ("Date", item.date),
   ("DOI", item.doi),
   ("URL", "https://doi.org/" ++ item.doi),
   ("Abstract", item.abstract)]

/-- Lines 149-189, body of the per-item loop: the keyword is matched
(lowercased) against the lowered abstract only; on a hit, exclusion and
required-keyword filters run against the lowered combined title+abstract;
survivors are formatted and appended. -/
def biorxivProcessItem (cfg : BioConfig) (keyword : String)
    (item : BiorxivItem) : Option (List (String × String)) × BioReason :=
  let abstractLower := pyLower item.abstract
  let combined := pyLower (item.title ++ " " ++ item.abstract)
  if pyIn (pyLower keyword) abstractLower then
    if biorxivExcludeRejectB cfg.excludeKeywords combined then
      (none, .excludedKeyword)
    else if biorxivRequiredRejectB cfg.requiredKeywords combined then
      (none, .missingRequired)
    else (some (biorxivEntryFields item), .retrieved)
  else (none, .notSelected)

/-- One bioRxiv page interaction: either an exception raised by
`requests.get` / `response.json()` — which the script does NOT catch — or a
response with an HTTP status and the optional `collection` array. -/
inductive BioPage where
  | raises (msg : String)
  | resp (status : Nat) (collection : Option (List BiorxivItem))

/-- Lines 135-195, pagination loop for one keyword.  A raised exception
propagates (`Except.error`, aborting the process); a non-200 status or a
missing `collection` key prints a failure message and breaks; an empty
collection breaks; otherwise accepted items are appended and the offset
advances by the batch size. -/
def biorxivKeywordLoop (fetch : Nat → BioPage) (cfg : BioConfig)
    (kw : String) (b : Nat) :
    Nat → Nat → List (List (String × String)) →
      Except String (List (List (String × String)))
  | 0, _, acc => .ok acc
  | fuel + 1, off, acc =>
      match fetch off with
      | .raises m => .error m
      | .resp status coll =>
          match status == 200, coll with
          | true, some [] => .ok acc
          | true, some (i :: items) =>
              biorxivKeywordLoop fetch cfg kw b fuel (off + b)
                (acc ++ ((i :: items).filterMap
                  (fun it => (biorxivProcessItem cfg kw it).1)))
          | true, none => .ok acc
          | false, _ => .ok acc

/-- Lines 132-195: process the keywords in order; an uncaught exception in
any keyword's loop aborts the whole run (remaining keywords unprocessed,
non-zero process exit). -/
def biorxivRun (fetch : String → Nat → BioPage) (cfg : BioConfig)
    (b fuel : Nat) :
    List String → List (List (String × String)) →
      Except String (List (List (String × String)))
  | [], acc => .ok acc
  | k :: t, acc =>
      match biorxivKeywordLoop (fetch k) cfg k b fuel 0 acc with
      | .error m => .error m
      | .ok acc2 => biorxivRun fetch cfg b fuel t acc2

/-- Page-size trace of the bioRxiv pagination loop against an ideal server
holding `count` items in the date range: like arXiv, the loop breaks only
on an empty collection. -/
def biorxivTraceAux (count b : Nat) : Nat → Nat → List Nat
  | _, 0 => []
  | off, fuel + 1 =>
      let page := min b (count - off)
      if page = 0 then [0]
      else page :: biorxivTraceAux count b (off + b) fuel

/-- Page-size trace of a full bioRxiv pagination run for one keyword. -/
def biorxivTrace (count b : Nat) : List Nat :=
  biorxivTraceAux count b 0 (count + 1)

/-- bioRxiv line 126: `start_date = now - timedelta(days=days)` (dates as
integer day numbers). -/
def biorxiv_start_date (today : Int) (days : Nat) : Int := today - days

/-- bioRxiv line 127: `end_date = now - timedelta(days=1)`. -/
def biorxiv_end_date (today : Int) : Int := today - 1

/-- PubMed line 134: `start_date = now - timedelta(days=days)`. -/
def pubmed_start_date (today : Int) (days : Nat) : Int := today - days

/-- PubMed line 135: `end_date = now` ("Include today in the end date"). -/
def pubmed_end_date (today : Int) : Int := today

/-- Membership of a day in an inclusive fetch date range. -/
def inDateRange (lo hi d : Int) : Prop := lo ≤ d ∧ d ≤ hi

/-! ## Consolidation (`summarise_papers.py`) -/

/-- A calendar date as parsed by `datetime.strptime(s, "%Y-%m-%d")`. -/
structure PDate where
  y : Nat
  m : Nat
  d : Nat
deriving DecidableEq

def isDigitStr (s : String) : Bool := !s.data.isEmpty && s.data.all Char.isDigit

/-- Model of `datetime.strptime(date_str, "%Y-%m-%d")` wrapped in
`try/except ValueError` (lines 85-89): three dash-separated digit groups
with a plausible month and day, else `none` (the script stores `None`).
Day-of-month validity is simplified to 1..31. -/
def parseDate (s : String) : Option PDate :=
  match splitOnChar '-' s with
  | [ys, ms, ds] =>
      if isDigitStr ys && isDigitStr ms && isDigitStr ds then
        let m := digitsToNat ms
        let d := digitsToNat ds
        if 1 ≤ m ∧ m ≤ 12 ∧ 1 ≤ d ∧ d ≤ 31 then
          some ⟨digitsToNat ys, m, d⟩
        else none
      else none
  | _ => none

/-- `datetime` comparison is lexicographic on (year, month, day). -/
def pdateLt (a b : PDate) : Bool :=
  decide (a.y < b.y ∨ (a.y = b.y ∧ (a.m < b.m ∨ (a.m = b.m ∧ a.d < b.d))))

/-- An extracted entry: title, parsed date (`none` models Python `None`),
URL. -/
structure SumEntry where
  title : String
  date : Option PDate
  url : String
deriving DecidableEq

/-- Python `x < y` on the sort keys: comparing `None` with anything —
including another `None` — raises `TypeError`. -/
def optDateLt : Option PDate → Option PDate → Except String Bool
  | some a, some b => .ok (pdateLt a b)
  | _, _ => .error "TypeError"

/-- In-progress entry dict while scanning lines (a key may be present with
value `None`, hence the nested `Option` for the date). -/
structure PartialEntry where
  title : Option String := none
  date : Option (Option PDate) := none
  url : Option String := none

/-- Lines 79-95, one line of `extract_entries`: strip the line, dispatch on
its label prefix, and flush the current entry on a blank line when all of
title, date and url keys are present. -/
def extractStep (s : PartialEntry × List SumEntry) (rawLine : String) :
    PartialEntry × List SumEntry :=
  let line := pyStrip rawLine
  if strStarts line "Title:" then
    ({ s.1 with title := some (strDrop line 7) }, s.2)
  else if strStarts line "Date:" then
    ({ s.1 with date := some (parseDate (strDrop line 6)) }, s.2)
  else if strStarts line "URL:" then
    ({ s.1 with url := some (strDrop line 5) }, s.2)
  else if line = "" then
    match s.1.title, s.1.date, s.1.url with
    | some t, some d, some u => ({}, s.2 ++ [⟨t, d, u⟩])
    | _, _, _ => ({}, s.2)
  else s

/-- `extract_entries` over the lines of one source file. -/
def extractEntries (lines : List String) : List SumEntry :=
  (lines.foldl extractStep ({}, [])).2

/-- Insert an entry into a date-descending list, propagating the Python
`TypeError` raised when a comparison touches a `None` date. -/
def insertByDateDesc (e : SumEntry) :
    List SumEntry → Except String (List SumEntry)
  | [] => .ok [e]
  | x :: t =>
      match optDateLt x.date e.date with
      | .error m => .error m
      | .ok true => .ok (e :: x :: t)
      | .ok false =>
          match insertByDateDesc e t with
          | .error m => .error m
          | .ok t2 => .ok (x :: t2)

/-- Line 105, `sorted(all_entries, key=lambda x: x["date"], reverse=True)`,
as an insertion sort in the exception monad: like Python's `sorted`, it
succeeds without comparisons on lists of length ≤ 1 and raises `TypeError`
as soon as a comparison involves a `None` date. -/
def sortByDateDesc : List SumEntry → Except String (List SumEntry)
  | [] => .ok []
  | e :: t =>
      match sortByDateDesc t with
      | .error m => .error m
      | .ok t2 => insertByDateDesc e t2

/-- Lines 108-116: the title+URL digest written to `titles_and_urls.txt`. -/
def digestOf (l : List SumEntry) : String :=
  if l.isEmpty then "No entries found for the given sources.\n"
  else String.join (l.map (fun e => e.title ++ "\n" ++ e.url ++ "\n\n"))

/-- Lines 98-116, the consolidation pipeline: extract the entries of every
present source file, sort them by date (newest first), render the digest.
An uncaught `TypeError` from the sort aborts the script. -/
def consolidate (files : List (List String)) : Except String String :=
  match sortByDateDesc (files.flatMap extractEntries) with
  | .error m => .error m
  | .ok l => .ok (digestOf l)

/-! ## Concrete fixtures used by the theorems below -/

/-- A PubMed article whose title contains "cancer" and whose text contains
no occurrence of "CRISPR". -/
def c1article : PubmedArticle :=
  { journalTitle := "Nature"
    articleTitle := some "Pancreatic Cancer Cells"
    authorList := [⟨some "Doe", some "J"⟩]
    pubYear := some "2024"
    pubMonth := some "Oct"
    pubDay := some "2"
    abstractFirst := some "We study tumors."
    doi := some "10.1/abc" }

/-- PubMed oracle: every page request returns `c1article` with total count
1, so pagination stops after one page. -/
def c1fetch : String → Nat → PmPage := fun _ _ => .page [c1article] 1

def cfgA0 : ArxivConfig := ⟨[], []⟩

def cfgB0 : BioConfig := ⟨[], []⟩

/-- An arXiv entry accepted with empty exclusion/required lists. -/
def c2entry : ArxivEntry :=
  { title := "A Result"
    summary := "We prove things."
    link := "http://arxiv.org/abs/1"
    authors := ["X Y"]
    published := 0
    publishedStr := "2024-10-01" }

/-- A bioRxiv item whose abstract contains the keyword "beta". -/
def c3item : BiorxivItem :=
  { title := "Beta study"
    abstract := "beta study of things"
    authors := .list ["A B"]
    date := "2024-10-01"
    doi := "10.2/b" }

/-- bioRxiv oracle: fetching for keyword "alpha" raises a transport
exception; keyword "beta" returns one item and then an empty page. -/
def c3fetch : String → Nat → BioPage := fun kw off =>
  if kw = "alpha" then .raises "ConnectionError"
  else if off = 0 then .resp 200 (some [c3item]) else .resp 200 (some [])

/-- bioRxiv oracle: keyword "alpha" gets an HTTP 500 with no `collection`
key (handled gracefully); keyword "beta" behaves as in `c3fetch`. -/
def c3fetchBad : String → Nat → BioPage := fun kw off =>
  if kw = "alpha" then .resp 500 none
  else if off = 0 then .resp 200 (some [c3item]) else .resp 200 (some [])

/-- A plain PubMed article for the transport-error fixtures. -/
def c3pmArticle : PubmedArticle :=
  { journalTitle := "Cell"
    articleTitle := some "B Result"
    authorList := []
    pubYear := some "2024"
    pubMonth := some "Oct"
    pubDay := some "3"
    abstractFirst := some "Findings."
    doi := none }

/-- PubMed oracle: keyword "alpha" raises inside the `try` block (caught by
the script); other keywords return one article with total count 1. -/
def c3pmFetch : String → Nat → PmPage := fun kw _ =>
  if kw = "alpha" then .raises "HTTPError" else .page [c3pmArticle] 1

/-- An arXiv entry containing the exclusion keyword "cancer". -/
def c4entry : ArxivEntry :=
  { title := "Cancer immunotherapy"
    summary := "A cancer study."
    link := "http://arxiv.org/abs/2"
    authors := ["Z"]
    published := 0
    publishedStr := "2024-10-02" }

def cfgC4 : ArxivConfig := ⟨["cancer"], []⟩

/-- A bioRxiv item whose title — but not abstract — contains "quantum". -/
def c6item : BiorxivItem :=
  { title := "Quantum Widgets"
    abstract := "We study frobnication."
    authors := .list ["A"]
    date := "2024-01-02"
    doi := "10.1/q" }

/-- Source-file lines whose entry has a parseable date. -/
def c7fileA : List String :=
  ["Title: A", "Authors: X", "Date: 2024-01-02", "URL: u", "Abstract: z", ""]

/-- Source-file lines whose entry's date line does not parse. -/
def c7fileB : List String :=
  ["Title: B", "Date: Unknown Date", "URL: v", ""]

/-- A blank PubMed article: every optional field absent. -/
def pmBlankArticle : PubmedArticle :=
  { journalTitle := ""
    articleTitle := none
    authorList := []
    pubYear := none
    pubMonth := none
    pubDay := none
    abstractFirst := none
    doi := none }

/-- Two extracted entries with parseable dates, oldest first. -/
def c7okList : List SumEntry :=
  [⟨"a", some ⟨2023, 1, 1⟩, "u"⟩, ⟨"b", some ⟨2024, 1, 2⟩, "v"⟩]

/-- An arXiv loop state that has already processed `c4entry`'s URL. -/
def c4stDup : ArxivState := ⟨[c4entry.link], []⟩

/-! ## Theorems -/

/-- C8: a missing keyword file, a file lacking the `keywords` section, or a
file with an empty `keywords` section makes the script report a
configuration error and exit with status 1, with zero network calls issued
(the check precedes all network activity in all three scripts). -/
theorem config_error_exits_before_network :
    ∀ (cf : Option (List (String × List String)))
      (runRest : KeywordsDict → Nat × Nat),
      (cf = none ∨ ∃ s, cf = some s ∧ sectionKeys s "keywords" = []) →
      scriptMain cf runRest = (1, 0) ∧ (1 : Nat) ≠ 0 := by
  intro cf runRest h
  refine ⟨?_, by decide⟩
  rcases h with h | ⟨s, rfl, hs⟩
  · subst h; rfl
  · simp [scriptMain, load_keywords_from_file, hs]

/-- Witness for `config_error_exits_before_network`: a file whose only
section is `exclude_keywords`. -/
theorem config_error_exits_before_network_witness :
    scriptMain (some [("exclude_keywords", ["virus"])]) (fun _ => (0, 7)) = (1, 0)
      ∧ (1 : Nat) ≠ 0 :=
  config_error_exits_before_network
    (some [("exclude_keywords", ["virus"])]) (fun _ => (0, 7))
    (Or.inr ⟨[("exclude_keywords", ["virus"])], rfl, by decide⟩)

/-- C9: required-keyword acceptance is any-match.  The arXiv/bioRxiv filter
accepts exactly when the required list is empty or the score (count of
required keywords present case-insensitively in the combined text) is at
least 1; bioRxiv's rejection test is the exact negation of arXiv's
acceptance test; and with required list `["CRISPR", "RNA"]` a text
containing only "RNA" is accepted with score 1. -/
theorem required_keyword_any_match :
    (∀ req combined, arxivRequiredAcceptB req combined = true ↔
        (req = [] ∨ 1 ≤ reqScore req combined))
    ∧ (∀ req combined,
        biorxivRequiredRejectB req combined = !arxivRequiredAcceptB req combined)
    ∧ arxivRequiredAcceptB ["CRISPR", "RNA"]
        (pyLower "New insights into messenger RNA stability") = true
    ∧ reqScore ["CRISPR", "RNA"]
        (pyLower "New insights into messenger RNA stability") = 1 := by
  refine ⟨?_, ?_, by decide, by decide⟩
  · intro req combined
    cases hs : reqScore req combined <;>
      simp [arxivRequiredAcceptB, hs, List.isEmpty_iff, Nat.succ_le_succ_iff]
  · intro req combined
    cases hre : req.isEmpty <;>
      cases hs : reqScore req combined <;>
        simp [biorxivRequiredRejectB, arxivRequiredAcceptB, hre, hs]

/-- The bioRxiv exclusion test (guarded by a non-emptiness check) decides
exactly as the arXiv exclusion test. -/
lemma biorxiv_exclude_eq_arxiv (excl : List String) (combined : String) :
    biorxivExcludeRejectB excl combined = arxivExcludeRejectB excl combined := by
  cases excl <;> simp [biorxivExcludeRejectB, arxivExcludeRejectB]

/-- The bioRxiv required-keyword rejection is the exact negation of the
arXiv required-keyword acceptance. -/
lemma biorxiv_required_eq_not_arxiv (req : List String) (combined : String) :
    biorxivRequiredRejectB req combined = !arxivRequiredAcceptB req combined := by
  cases hre : req.isEmpty <;>
    cases hs : reqScore req combined <;>
      simp [biorxivRequiredRejectB, arxivRequiredAcceptB, hre, hs]

/-- C1 (counterexample): the PubMed script applies no client-side
exclusion-keyword or required-keyword filter.  With exclusion list
`["cancer"]` and required list `["CRISPR"]`, the article titled "Pancreatic
Cancer Cells" (combined text containing "cancer" and lacking "CRISPR") is
still accepted and formatted by the PubMed per-article loop — the very same
text that the arXiv/bioRxiv client-side filters would reject on both
counts. -/
theorem pubmed_no_clientside_filter_counterexample :
    pubmedRun c1fetch [] 100 5 ["oncology"] [] = [pubmedEntryFields c1article]
    ∧ pubmedProcessArticle [] c1article = some (pubmedEntryFields c1article)
    ∧ arxivExcludeRejectB ["cancer"]
        (pyLower ("Pancreatic Cancer Cells" ++ " " ++ "We study tumors.")) = true
    ∧ arxivRequiredAcceptB ["CRISPR"]
        (pyLower ("Pancreatic Cancer Cells" ++ " " ++ "We study tumors.")) = false := by
  exact ⟨rfl, rfl, by decide, by decide⟩

/-- C1 (amended): client-side exclusion and required-keyword filtering is
applied with identical semantics by the arXiv and bioRxiv scripts only; the
PubMed script instead embeds exclusion keywords as NOT clauses in the
server query and never consults the required-keyword list, its only
client-side filter being the journal allow-list. -/
theorem clientside_filters_arxiv_biorxiv_only :
    (∀ excl combined,
        biorxivExcludeRejectB excl combined = arxivExcludeRejectB excl combined)
    ∧ (∀ req combined,
        biorxivRequiredRejectB req combined = !arxivRequiredAcceptB req combined)
    ∧ pubmedQuery "oncology" [] ["cancer", "mice"] = "(oncology) NOT cancer NOT mice"
    ∧ (∀ joi a, (pubmedProcessArticle joi a).isSome =
        pubmedJournalOkB joi (pyLower a.journalTitle)) := by
  refine ⟨biorxiv_exclude_eq_arxiv, biorxiv_required_eq_not_arxiv, by decide, ?_⟩
  intro joi a
  unfold pubmedProcessArticle
  cases h : pubmedJournalOkB joi (pyLower a.journalTitle) <;> simp [h]

/-- C2 (counterexample): an arXiv entry accepted by the per-entry loop is
formatted with five labelled fields — there is no `Journal` line — so the
record does not contain the six claimed fields. -/
theorem arxiv_record_five_fields_counterexample :
    (arxivProcessEntry cfgA0 0 0 arxivState0 c2entry).2 = ArxivReason.retrieved
    ∧ (arxivProcessEntry cfgA0 0 0 arxivState0 c2entry).1.entries =
        [(c2entry.link, renderFields (arxivEntryFields c2entry))]
    ∧ (arxivEntryFields c2entry).map Prod.fst =
        ["Title", "Authors", "Date", "URL", "Abstract"]
    ∧ ["Title", "Authors", "Date", "URL", "Abstract"] ≠
        ["Title", "Authors", "Journal", "Date", "URL", "Abstract"] := by
  exact ⟨rfl, rfl, rfl, by decide⟩

/-- C2 (amended): the labelled fields of a formatted record, per source:
PubMed emits Title, Authors, Journal, Date, URL, Abstract; arXiv emits five
fields (no Journal); bioRxiv emits Title, Authors, Date, DOI, URL,
Abstract.  Placeholders substitute absent PubMed data (No Title, Unknown
Date, Full text link not available, No Abstract), while absent authors and
journal render as empty values after their labels. -/
theorem record_fields_per_source :
    (∀ a : PubmedArticle, (pubmedEntryFields a).map Prod.fst =
        ["Title", "Authors", "Journal", "Date", "URL", "Abstract"])
    ∧ (∀ e : ArxivEntry, (arxivEntryFields e).map Prod.fst =
        ["Title", "Authors", "Date", "URL", "Abstract"])
    ∧ (∀ i : BiorxivItem, (biorxivEntryFields i).map Prod.fst =
        ["Title", "Authors", "Date", "DOI", "URL", "Abstract"])
    ∧ pubmedEntryFields pmBlankArticle =
        [("Title", "No Title"), ("Authors", ""), ("Journal", ""),
         ("Date", "Unknown Date"), ("URL", "Full text link not available"),
         ("Abstract", "No Abstract")] := by
  exact ⟨fun a => rfl, fun e => rfl, fun i => rfl, by decide⟩

/-- The PubMed per-keyword pagination loop only ever appends to the shared
accumulator: exceptions inside it are caught and cannot destroy earlier
keywords' entries. -/
lemma pubmedKeywordLoop_append (fetch : Nat → PmPage) (joi : List String)
    (b : Nat) : ∀ (fuel r : Nat) (acc : List (List (String × String))),
    pubmedKeywordLoop fetch joi b fuel r acc =
      acc ++ pubmedKeywordLoop fetch joi b fuel r [] := by
  intro fuel
  induction fuel with
  | zero => intro r acc; simp [pubmedKeywordLoop]
  | succ n ih =>
      intro r acc
      simp only [pubmedKeywordLoop]
      cases fetch r with
      | raises m => simp
      | page arts count =>
          by_cases h1 : arts.isEmpty
          · simp [h1]
          · by_cases h2 : count ≤ r + b
            · simp [h1, h2]
            · simp only [h1, h2, if_false, if_true, List.nil_append]
              rw [ih (r + b), ih (r + b) (arts.filterMap (pubmedProcessArticle joi))]
              simp [List.append_assoc]

/-- Keywords are processed independently in the PubMed script: the entries
accumulated so far are preserved by each further keyword's loop. -/
lemma pubmedRun_append (fetch : String → Nat → PmPage) (joi : List String)
    (b fuel : Nat) : ∀ (kws : List String) (acc : List (List (String × String))),
    pubmedRun fetch joi b fuel kws acc = acc ++ pubmedRun fetch joi b fuel kws [] := by
  intro kws
  induction kws with
  | nil => intro acc; simp [pubmedRun]
  | cons k t ih =>
      intro acc
      simp only [pubmedRun]
      rw [pubmedKeywordLoop_append (fetch k) joi b fuel 0 acc, ih,
        ih (pubmedKeywordLoop (fetch k) joi b fuel 0 [])]
      simp [List.append_assoc]

/-- C3 (counterexample): in the bioRxiv script a transport exception during
a page fetch is NOT caught — with keyword list `["alpha", "beta"]` and an
oracle whose "alpha" fetch raises `ConnectionError`, the whole run aborts
with that exception (non-zero process exit) and the remaining keyword
"beta" is never processed, contrary to the claimed per-keyword isolation
and zero exit status. -/
theorem biorxiv_uncaught_transport_error_counterexample :
    biorxivRun c3fetch cfgB0 100 5 ["alpha", "beta"] [] =
      Except.error "ConnectionError" := by rfl

/-- C3 (amended): the PubMed script catches fetch exceptions per keyword —
its accumulator only ever grows, and a keyword whose fetch raises
contributes nothing while later keywords still contribute (concretely,
"alpha" raising leaves exactly the "beta" entry).  The bioRxiv script
handles a non-200/malformed response gracefully (that keyword's pagination
ends, later keywords proceed, exit zero), but a raised transport/parse
exception aborts the entire process: with "beta" processed first and
"alpha" raising second, even the already-accumulated entries are lost in
the `Except.error` outcome. -/
theorem transport_error_isolation_per_script :
    (∀ (fetch : String → Nat → PmPage) (joi : List String) (b fuel : Nat)
        (kws : List String) (acc : List (List (String × String))),
        pubmedRun fetch joi b fuel kws acc =
          acc ++ pubmedRun fetch joi b fuel kws [])
    ∧ pubmedRun c3pmFetch [] 100 5 ["alpha", "beta"] [] =
        [pubmedEntryFields c3pmArticle]
    ∧ biorxivRun c3fetchBad cfgB0 100 5 ["alpha", "beta"] [] =
        Except.ok [biorxivEntryFields c3item]
    ∧ biorxivRun c3fetch cfgB0 100 5 ["beta", "alpha"] [] =
        Except.error "ConnectionError" := by
  exact ⟨fun fetch joi b fuel kws acc => pubmedRun_append fetch joi b fuel kws acc,
    rfl, rfl, rfl⟩

/-- C4 (counterexample): the arXiv per-entry loop applies deduplication
FIRST, keyed on processed (not accepted) links.  Feeding the same entry —
which contains the exclusion keyword "cancer" — twice: the first occurrence
is rejected by the exclusion filter, the second is rejected by the
deduplication step even though its URL was never accepted (`entries` stays
empty), whereas under the claimed order (exclusion before deduplication,
dedup keyed on accepted URLs) the second occurrence would be rejected by
the exclusion filter. -/
theorem arxiv_dedup_first_counterexample :
    (arxivRunList cfgC4 0 0 arxivState0 [c4entry, c4entry]).2 =
        [ArxivReason.excludedKeyword, ArxivReason.dupSkip]
    ∧ (arxivRunList cfgC4 0 0 arxivState0 [c4entry, c4entry]).1.entries = []
    ∧ claimOrderFilterReason cfgC4 [] c4entry = ArxivReason.excludedKeyword
    ∧ ArxivReason.dupSkip ≠ ArxivReason.excludedKeyword := by
  exact ⟨by decide, by decide, by decide, by decide⟩

/-- C4 (amended): in the arXiv per-entry body the deduplication test runs
first and rejects exactly the entries whose URL is already in
`processed_links` (accepted or not), leaving the state unchanged; an entry
is accepted (`retrieved`) only when its URL was not yet processed, its date
is within the window, no exclusion keyword occurs in the combined
title+summary, and the required-keyword test passes — i.e. the remaining
filters short-circuit in the order date, exclusion, required. -/
theorem arxiv_filter_order_properties :
    ∀ (cfg : ArxivConfig) (now days : Int) (st : ArxivState) (e : ArxivEntry),
      ((arxivProcessEntry cfg now days st e).2 = ArxivReason.dupSkip ↔
        st.processedLinks.contains e.link = true)
      ∧ ((arxivProcessEntry cfg now days st e).2 = ArxivReason.dupSkip →
          (arxivProcessEntry cfg now days st e).1 = st)
      ∧ ((arxivProcessEntry cfg now days st e).2 = ArxivReason.retrieved →
          st.processedLinks.contains e.link = false
          ∧ now - days ≤ e.published
          ∧ arxivExcludeRejectB cfg.excludeKeywords
              (pyLower (e.title ++ " " ++ e.summary)) = false
          ∧ arxivRequiredAcceptB cfg.requiredKeywords
              (pyLower (e.title ++ " " ++ e.summary)) = true) := by
  intro cfg now days st e
  unfold arxivProcessEntry
  split
  next hdup => simp at hdup; simp [hdup]
  next hdup =>
    simp at hdup
    split
    next hdate =>
      split
      next hexc => simp [hdup]
      next hexc =>
        rw [Bool.not_eq_true] at hexc
        split
        next hreq => simp [hdup, hdate, hexc, hreq]
        next hreq => simp [hdup]
    next hdate => simp [hdup]

/-- C4 (amended, witness): the properties at the concrete state `c4stDup`
that has already processed `c4entry`'s URL. -/
theorem arxiv_filter_order_properties_witness :
    ((arxivProcessEntry cfgC4 0 0 c4stDup c4entry).2 = ArxivReason.dupSkip ↔
        c4stDup.processedLinks.contains c4entry.link = true)
      ∧ ((arxivProcessEntry cfgC4 0 0 c4stDup c4entry).2 = ArxivReason.dupSkip →
          (arxivProcessEntry cfgC4 0 0 c4stDup c4entry).1 = c4stDup)
      ∧ ((arxivProcessEntry cfgC4 0 0 c4stDup c4entry).2 = ArxivReason.retrieved →
          c4stDup.processedLinks.contains c4entry.link = false
          ∧ (0 : Int) - 0 ≤ c4entry.published
          ∧ arxivExcludeRejectB cfgC4.excludeKeywords
              (pyLower (c4entry.title ++ " " ++ c4entry.summary)) = false
          ∧ arxivRequiredAcceptB cfgC4.requiredKeywords
              (pyLower (c4entry.title ++ " " ++ c4entry.summary)) = true) :=
  arxiv_filter_order_properties cfgC4 0 0 c4stDup c4entry

/-- C5 (counterexample): against a source reporting total count 250 with
batch size 100, the arXiv pagination loop issues FOUR page requests
(returning 100, 100, 50 and then 0 entries) — it terminates only on an
empty page, never by comparing the offset with the reported total — so the
claimed "exactly 3 page requests for every source script" fails. -/
theorem arxiv_four_page_requests_counterexample :
    arxivTrace 250 100 = [100, 100, 50, 0]
    ∧ (arxivTrace 250 100).length = 4
    ∧ (4 : Nat) ≠ 3 := by
  exact ⟨rfl, rfl, by decide⟩

/-- C5 (amended): pagination terminates in all three scripts, but with
different request counts in the claimed scenario (total 250, batch 100).
PubMed stops when `retstart` reaches the reported count, issuing exactly 3
requests returning 100, 100 and 50 ids (and a single request when the
source reports zero results); arXiv and bioRxiv stop only on an empty page
and issue 4 requests returning 100, 100, 50 and 0 items.  The traces are
fuel-independent: a much larger iteration bound yields the same requests,
i.e. each loop genuinely breaks. -/
theorem pagination_request_traces :
    pubmedTrace 250 100 = [100, 100, 50]
    ∧ (pubmedTrace 250 100).length = 3
    ∧ pubmedTrace 0 100 = [0]
    ∧ arxivTrace 250 100 = [100, 100, 50, 0]
    ∧ biorxivTrace 250 100 = [100, 100, 50, 0]
    ∧ pubmedTraceAux 250 100 0 1000 = [100, 100, 50]
    ∧ arxivTraceAux 250 100 0 1000 = [100, 100, 50, 0]
    ∧ biorxivTraceAux 250 100 0 1000 = [100, 100, 50, 0] := by
  exact ⟨rfl, rfl, rfl, rfl, rfl, rfl, rfl, rfl⟩

/-- C6 (counterexample): a bioRxiv item whose TITLE contains the keyword
"quantum" (case-insensitively) but whose abstract does not is NOT selected:
the keyword test reads only the abstract, not the combined abstract/title
text. -/
theorem biorxiv_title_keyword_not_selected_counterexample :
    pyIn (pyLower "quantum") (pyLower (c6item.title ++ " " ++ c6item.abstract)) = true
    ∧ (biorxivProcessItem cfgB0 "quantum" c6item).2 = BioReason.notSelected
    ∧ (biorxivProcessItem cfgB0 "quantum" c6item).1 = none := by
  exact ⟨by decide, by decide, by decide⟩

/-- C6 (amended): in the bioRxiv script an article passes the keyword
selection step for a keyword exactly when the lowercased keyword occurs as
a substring of the lowercased abstract alone; the title takes part only in
the subsequent exclusion/required filters. -/
theorem biorxiv_selection_abstract_only :
    ∀ (cfg : BioConfig) (kw : String) (item : BiorxivItem),
      ((biorxivProcessItem cfg kw item).2 ≠ BioReason.notSelected ↔
        pyIn (pyLower kw) (pyLower item.abstract) = true) := by
  intro cfg kw item
  unfold biorxivProcessItem
  cases h : pyIn (pyLower kw) (pyLower item.abstract)
  · simp [h]
  · simp only [h, if_true]
    split
    · simp
    · split <;> simp

/-- C6 (amended, witness): instantiated at `c3item`, whose abstract does
contain the keyword "beta". -/
theorem biorxiv_selection_abstract_only_witness :
    ((biorxivProcessItem cfgB0 "beta" c3item).2 ≠ BioReason.notSelected ↔
      pyIn (pyLower "beta") (pyLower c3item.abstract) = true) :=
  biorxiv_selection_abstract_only cfgB0 "beta" c3item

/-- `datetime` comparison is asymmetric. -/
lemma pdateLt_asymm {a b : PDate} (h : pdateLt a b = true) :
    pdateLt b a = false := by
  simp [pdateLt] at *
  omega

/-- If `x < e` and not `x < z`, then not `e < z` (lexicographic dates). -/
lemma pdateLt_shift {x e z : PDate} (hxe : pdateLt x e = true)
    (hxz : pdateLt x z = false) : pdateLt e z = false := by
  simp [pdateLt] at *
  omega

/-- A date-comparison result `ok false` forces the right operand to carry a
parsed date. -/
lemma optDateLt_ok_false {a : SumEntry} {z : SumEntry} {da : PDate}
    (ha : a.date = some da) (h : optDateLt a.date z.date = Except.ok false) :
    ∃ dz, z.date = some dz ∧ pdateLt da dz = false := by
  cases hz : z.date with
  | none => rw [ha, hz] at h; exact absurd h (by simp [optDateLt])
  | some dz =>
      rw [ha, hz] at h
      simp only [optDateLt, Except.ok.injEq] at h
      exact ⟨dz, rfl, h⟩

/-- Inserting an entry with a parsed date into a date-descending list of
entries with parsed dates succeeds and preserves descending order, up to
permutation with the pushed entry. -/
lemma insertByDateDesc_ok (e : SumEntry) (de : PDate) (he : e.date = some de) :
    ∀ l : List SumEntry,
      (∀ x ∈ l, x.date.isSome = true) →
      l.Pairwise (fun a b => optDateLt a.date b.date = Except.ok false) →
      ∃ l2, insertByDateDesc e l = Except.ok l2
        ∧ l2.Pairwise (fun a b => optDateLt a.date b.date = Except.ok false)
        ∧ l2.Perm (e :: l) := by
  intro l
  induction l with
  | nil =>
      exact fun _ _ => ⟨[e], rfl, List.pairwise_singleton _ _, List.Perm.refl _⟩
  | cons x t ih =>
      intro hsome hpw
      obtain ⟨hxall, hpwt⟩ := List.pairwise_cons.mp hpw
      obtain ⟨dx, hdx⟩ : ∃ dx, x.date = some dx := by
        have hx := hsome x (List.mem_cons_self x t)
        cases hx2 : x.date with
        | none => rw [hx2] at hx; exact absurd hx (by simp)
        | some dx => exact ⟨dx, rfl⟩
      cases hcmp : pdateLt dx de with
      | true =>
          refine ⟨e :: x :: t, ?_, ?_, List.Perm.refl _⟩
          · simp only [insertByDateDesc, hdx, he, optDateLt, hcmp]
          · refine List.pairwise_cons.mpr ⟨?_, hpw⟩
            intro z hz
            rcases List.mem_cons.mp hz with rfl | hzt
            · rw [he, hdx]
              simp only [optDateLt, Except.ok.injEq]
              exact pdateLt_asymm hcmp
            · obtain ⟨dz, hdz, hxz⟩ := optDateLt_ok_false hdx (hxall z hzt)
              rw [he, hdz]
              simp only [optDateLt, Except.ok.injEq]
              exact pdateLt_shift hcmp hxz
      | false =>
          obtain ⟨t2, hins, hpw2, hperm⟩ :=
            ih (fun z hz => hsome z (List.mem_cons_of_mem x hz)) hpwt
          refine ⟨x :: t2, ?_, ?_, ?_⟩
          · simp only [insertByDateDesc, hdx, he, optDateLt, hcmp, hins]
          · refine List.pairwise_cons.mpr ⟨?_, hpw2⟩
            intro z hz
            rcases List.mem_cons.mp (hperm.mem_iff.mp hz) with rfl | hzt
            · rw [hdx, he]
              simp only [optDateLt, Except.ok.injEq]
              exact hcmp
            · exact hxall z hzt
          · exact (hperm.cons x).trans (List.Perm.swap e x t)

/-- The consolidation sort succeeds on any entry list whose dates all
parsed, and returns a date-descending permutation of it. -/
lemma sortByDateDesc_ok :
    ∀ l : List SumEntry, (∀ x ∈ l, x.date.isSome = true) →
      ∃ l2, sortByDateDesc l = Except.ok l2
        ∧ l2.Pairwise (fun a b => optDateLt a.date b.date = Except.ok false)
        ∧ l2.Perm l := by
  intro l
  induction l with
  | nil => exact fun _ => ⟨[], rfl, List.Pairwise.nil, List.Perm.refl _⟩
  | cons e t ih =>
      intro hsome
      obtain ⟨t2, hst, hpw, hperm⟩ :=
        ih (fun x hx => hsome x (List.mem_cons_of_mem e hx))
      obtain ⟨de, hde⟩ : ∃ de, e.date = some de := by
        have hx := hsome e (List.mem_cons_self e t)
        cases hx2 : e.date with
        | none => rw [hx2] at hx; exact absurd hx (by simp)
        | some de => exact ⟨de, rfl⟩
      have hsome2 : ∀ x ∈ t2, x.date.isSome = true := fun x hx =>
        hsome x (List.mem_cons_of_mem e (hperm.mem_iff.mp hx))
      obtain ⟨l2, hins, hpw2, hperm2⟩ := insertByDateDesc_ok e de hde t2 hsome2 hpw
      refine ⟨l2, ?_, hpw2, hperm2.trans (hperm.cons e)⟩
      simp only [sortByDateDesc, hst, hins]

/-- C7 (counterexample): consolidating one file whose entry has a
parseable date with one whose `Date:` line is `Unknown Date` (stored as
`None`) aborts with the Python `TypeError` raised by comparing `None`
against a parsed date — the sort does NOT complete for this mix. -/
theorem consolidation_mixed_dates_typeerror_counterexample :
    extractEntries c7fileB = [⟨"B", none, "v"⟩]
    ∧ extractEntries c7fileA = [⟨"A", some ⟨2024, 1, 2⟩, "u"⟩]
    ∧ consolidate [c7fileA, c7fileB] = Except.error "TypeError" := by
  exact ⟨by decide, by decide, by rfl⟩

/-- C7 (amended): the consolidation step extracts entries from all source
files, stores `None` for an unparseable `Date:` line (so such an entry is
date-invalid), and sorts by parsed date newest-first — but the sort
completes only when every compared date parsed: on any list of entries with
parsed dates it returns a date-descending permutation, while a mix of
parseable and unparseable dates raises an uncaught `TypeError`. -/
theorem consolidation_sort_and_fallback :
    parseDate "Unknown Date" = none
    ∧ parseDate "2024-01-02" = some ⟨2024, 1, 2⟩
    ∧ (∀ l : List SumEntry, (∀ x ∈ l, x.date.isSome = true) →
        ∃ l2, sortByDateDesc l = Except.ok l2
          ∧ l2.Pairwise (fun a b => optDateLt a.date b.date = Except.ok false)
          ∧ l2.Perm l) := by
  exact ⟨by decide, by decide, sortByDateDesc_ok⟩

/-- C7 (amended, witness): the sort completes on the concrete two-entry
list `c7okList` whose dates both parsed. -/
theorem consolidation_sort_and_fallback_witness :
    ∃ l2, sortByDateDesc c7okList = Except.ok l2
      ∧ l2.Pairwise (fun a b => optDateLt a.date b.date = Except.ok false)
      ∧ l2.Perm c7okList :=
  consolidation_sort_and_fallback.2.2 c7okList (by decide)

/-- C10: the bioRxiv fetch range runs from `today - days` to `today - 1`,
so today's date is never inside the requested range — an article dated
today is not retrieved — while the PubMed range `today - days .. today`
does include today. -/
theorem biorxiv_range_excludes_today :
    ∀ (today : Int) (days : Nat),
      ¬ inDateRange (biorxiv_start_date today days) (biorxiv_end_date today) today
      ∧ inDateRange (pubmed_start_date today days) (pubmed_end_date today) today := by
  intro t d
  simp only [inDateRange, biorxiv_start_date, biorxiv_end_date,
    pubmed_start_date, pubmed_end_date]
  refine ⟨fun h => ?_, ?_, ?_⟩
  all_goals omega

/-- C10 (witness): instantiated at day number 738000 with a 7-day window. -/
theorem biorxiv_range_excludes_today_witness :
    ¬ inDateRange (biorxiv_start_date 738000 7) (biorxiv_end_date 738000) 738000
    ∧ inDateRange (pubmed_start_date 738000 7) (pubmed_end_date 738000) 738000 :=
  biorxiv_range_excludes_today 738000 7

/-- C9 (witness): the any-match characterization instantiated at the
claim's own example. -/
theorem required_keyword_any_match_witness :
    (arxivRequiredAcceptB ["CRISPR", "RNA"]
        (pyLower "New insights into messenger RNA stability") = true ↔
      (["CRISPR", "RNA"] = ([] : List String)
        ∨ 1 ≤ reqScore ["CRISPR", "RNA"]
            (pyLower "New insights into messenger RNA stability"))) :=
  required_keyword_any_match.1 ["CRISPR", "RNA"]
    (pyLower "New insights into messenger RNA stability")

/-- C1 (amended, witness): PubMed acceptance at `c1article` coincides with
the journal test alone. -/
theorem clientside_filters_arxiv_biorxiv_only_witness :
    (pubmedProcessArticle [] c1article).isSome =
      pubmedJournalOkB [] (pyLower c1article.journalTitle) :=
  clientside_filters_arxiv_biorxiv_only.2.2.2 [] c1article

/-- C2 (amended, witness): the PubMed field labels at `c1article`. -/
theorem record_fields_per_source_witness :
    (pubmedEntryFields c1article).map Prod.fst =
      ["Title", "Authors", "Journal", "Date", "URL", "Abstract"] :=
  record_fields_per_source.1 c1article

/-- C3 (amended, witness): accumulator preservation instantiated at a
concrete oracle, keyword list and non-empty accumulator. -/
theorem transport_error_isolation_per_script_witness :
    pubmedRun c3pmFetch [] 100 5 ["alpha", "beta"]
        [pubmedEntryFields c1article] =
      [pubmedEntryFields c1article] ++ pubmedRun c3pmFetch [] 100 5 ["alpha", "beta"] [] :=
  transport_error_isolation_per_script.1 c3pmFetch [] 100 5 ["alpha", "beta"]
    [pubmedEntryFields c1article]
